import Mathlib

/-!
Shallow embedding of the MongoDB memory-store connector
(src/python/semantic_kernel/connectors/memory/mongodb/mongodb_memory_store.py).

Collections are modelled as association lists of document id to document, the
driver calls (find_one, find, update_one, insert_many, delete_one, aggregate)
as pure functions on that state, and the two loops (upsert_batch_async,
get_batch_async) as folds.  Helpers that live in the missing utils.py (record
mapping, similarity query builders, the insert-batch-size constant) are
modelled from the spec and say so in their doc comments.
-/

/-- A dynamic-language value, as far as the truthiness test in the
constructor's index guard is concerned: calling an async method without
awaiting it yields a coroutine object, which is always truthy. -/
inductive PyValue where
  | coroutine : PyValue
  | noneVal : PyValue
  | boolVal : Bool → PyValue
deriving DecidableEq

/-- Truthiness of a dynamic value; a coroutine object is always truthy. -/
def pyTruthy : PyValue → Bool
  | PyValue.coroutine => true
  | PyValue.noneVal => false
  | PyValue.boolVal b => b

/-- The configuration a successfully constructed store holds. -/
structure StoreConfig where
  api_type : String
  collection_name : String
  index_name : String
  embedding_key : String
  vector_size : Int
  batch_size : Nat
deriving DecidableEq

/-- Outcome of MongoDBMemoryStore.__init__ as observed by the caller. -/
inductive InitOutcome where
  | configError : String → InitOutcome
  | missingIndexError : InitOutcome
  | ok : StoreConfig → InitOutcome
deriving DecidableEq

/-- MongoDBMemoryStore.__init__ (source lines 49-88).  The four argument
checks raise ValueError exactly when vector_size is non-positive or one of
embedding_key, database_name, collection_name is None.  The missing-index
guard tests `not self.does_index_exist_async(...)`; does_index_exist_async is
an async def and the call is not awaited, so the tested value is a coroutine
object (always truthy) and the guard can never fire.  The argument
`indexExists` records whether the search index actually exists on the
collection; the code never consults it. -/
def mongodb_memory_store_init (vector_size : Int) (database_name : Option String)
    (api_type : String) (embedding_key : Option String)
    (collection_name : Option String) (index_name : String) (batch_size : Nat)
    (indexExists : Bool) : InitOutcome :=
  if vector_size ≤ 0 then
    InitOutcome.configError "Vector dimension must be a positive integer"
  else if embedding_key = none then
    InitOutcome.configError "embedding_key must be specified"
  else if database_name = none then
    InitOutcome.configError "database_name must be specified"
  else if collection_name = none then
    InitOutcome.configError "collection_name must be specified"
  else if ¬ pyTruthy PyValue.coroutine then
    InitOutcome.missingIndexError
  else
    InitOutcome.ok ⟨api_type, collection_name.getD "", index_name,
      embedding_key.getD "", vector_size, batch_size⟩

/-- The domain record: possibly absent id, opaque text payload, embedding. -/
structure MemoryRecord where
  _id : Option String
  text : String
  embedding : List Int
deriving DecidableEq

/-- A stored document: a definite id field, the payload, the embedding. -/
structure MongoDoc where
  _id : String
  text : String
  embedding : List Int
deriving DecidableEq

/-- A collection: documents keyed by their id field, in insertion order. -/
abbrev Collection := List (String × MongoDoc)

/-- Modelled from the spec: memory_record_to_mongodb_record (utils.py, not
under src) is a pure mapping of a record, whose id `rid` has already been
assigned, to a document; it preserves id, payload and embedding. -/
def memory_record_to_mongodb_record (rid : String) (r : MemoryRecord) : MongoDoc :=
  ⟨rid, r.text, r.embedding⟩

/-- Modelled from the spec: dict_to_memory_record (utils.py, not under src)
is the inverse mapping of a document back to a record. -/
def dict_to_memory_record (d : MongoDoc) : MemoryRecord :=
  ⟨some d._id, d.text, d.embedding⟩

/-- Modelled from the spec: str(uuid.uuid4()) generates a fresh unique id;
randomness is modelled as a deterministic fresh-name supply indexed by a
counter threaded through the computation. -/
def uuid4 (n : Nat) : String := "uuid-" ++ toString n

/-- Python `not record._id`: true when the id is None or the empty string. -/
def idFalsy : Option String → Bool
  | none => true
  | some s => s == ""

/-- collection.find_one on the id filter: the first document whose id field
matches, if any. -/
def find_one (coll : Collection) (key : String) : Option MongoDoc :=
  match coll with
  | [] => none
  | p :: rest => if p.1 = key then some p.2 else find_one rest key

/-- collection.find on the id filter: every document whose id field matches,
in collection order (get_batch_async iterates this cursor fully). -/
def findDocs (coll : Collection) (key : String) : List MongoDoc :=
  match coll with
  | [] => []
  | p :: rest => if p.1 = key then p.2 :: findDocs rest key else findDocs rest key

/-- collection.update_one with a whole-document $set: replaces the fields of
the first document matching the id filter, leaving its key in place. -/
def update_one (coll : Collection) (key : String) (doc : MongoDoc) : Collection :=
  match coll with
  | [] => []
  | p :: rest =>
      if p.1 = key then (key, doc) :: rest else p :: update_one rest key doc

/-- collection.insert_many: appends the documents and reports their ids
(the driver's result.inserted_ids). -/
def insert_many (coll : Collection) (docs : List MongoDoc) : Collection × List String :=
  (coll ++ docs.map (fun d => (d._id, d)), docs.map (fun d => d._id))

/-- collection.delete_one on the id filter: removes the first matching
document; removing a missing key changes nothing and is never an error. -/
def delete_one (coll : Collection) (key : String) : Collection :=
  match coll with
  | [] => []
  | p :: rest => if p.1 = key then rest else p :: delete_one rest key

/-- The evolving state of upsert_batch_async: the live collection, the
pending-insert buffer (mongodb_records), the ids reported by bulk inserts so
far (inserted_ids), how many insert_many calls were issued, and the
fresh-id supply. -/
structure UpsertState where
  coll : Collection
  buffer : List MongoDoc
  inserted_ids : List String
  insertCalls : Nat
  uuidCtr : Nat
deriving DecidableEq

/-- One iteration of the loop in upsert_batch_async (source lines 231-258):
assign a fresh id when the record has none, look the id up, update in place
when found, otherwise buffer the document and flush via insert_many when the
buffer reaches `insertBatchSize` — the module constant
DEFAULT_INSERT_BATCH_SIZE (utils.py, not under src, value unspecified by the
spec), which is the threshold the code actually compares against. -/
def upsertStep (insertBatchSize : Nat) (s : UpsertState) (r : MemoryRecord) :
    UpsertState :=
  let rid := if idFalsy r._id then uuid4 s.uuidCtr else r._id.getD ""
  let ctr := if idFalsy r._id then s.uuidCtr + 1 else s.uuidCtr
  match find_one s.coll rid with
  | some _ =>
      { s with coll := update_one s.coll rid (memory_record_to_mongodb_record rid r),
               uuidCtr := ctr }
  | none =>
      let buf := s.buffer ++ [memory_record_to_mongodb_record rid r]
      if buf.length = insertBatchSize then
        let fl := insert_many s.coll buf
        ⟨fl.1, [], s.inserted_ids ++ fl.2, s.insertCalls + 1, ctr⟩
      else
        { s with buffer := buf, uuidCtr := ctr }

/-- upsert_batch_async (source lines 214-264): loop over the records, then
flush any remaining buffered documents with one more insert_many call. -/
def upsert_batch_async (insertBatchSize : Nat) (coll : Collection)
    (records : List MemoryRecord) (ctr : Nat) : UpsertState :=
  let s := records.foldl (upsertStep insertBatchSize) ⟨coll, [], [], 0, ctr⟩
  if s.buffer.isEmpty then s
  else
    let fl := insert_many s.coll s.buffer
    ⟨fl.1, [], s.inserted_ids ++ fl.2, s.insertCalls + 1, s.uuidCtr⟩

/-- upsert_async (source lines 198-212): delegates to upsert_batch_async with
a one-element batch; returns the first resulting id when the result list is
non-empty, else None. -/
def upsert_async (insertBatchSize : Nat) (coll : Collection) (r : MemoryRecord)
    (ctr : Nat) : Option String × UpsertState :=
  let s := upsert_batch_async insertBatchSize coll [r] ctr
  match s.inserted_ids with
  | [] => (none, s)
  | x :: _ => (some x, s)

/-- Modelled from the spec: Upsert delegates to batch upsert with a
single-element batch and returns the first resulting id, or an absent
result when the batch produced none. -/
def upsert_spec (insertBatchSize : Nat) (coll : Collection) (r : MemoryRecord)
    (ctr : Nat) : Option String :=
  (upsert_batch_async insertBatchSize coll [r] ctr).inserted_ids.head?

/-- Repeated in-place update of a collection by a list of records, id by id:
what upsert_batch_async does to the collection when every record already has
a matching document. -/
def update_all (coll : Collection) (records : List MemoryRecord) : Collection :=
  records.foldl
    (fun cc r =>
      update_one cc (r._id.getD "") (memory_record_to_mongodb_record (r._id.getD "") r))
    coll

/-- get_batch_async (source lines 283-297): for each key in order, iterate
the find cursor for that key and append every resulting document, mapped
back to a record; keys with no match contribute nothing. -/
def get_batch_async (coll : Collection) (keys : List String) : List MemoryRecord :=
  keys.foldl (fun acc k => acc ++ (findDocs coll k).map dict_to_memory_record) []

/-- remove_async (source lines 314-317): one delete_one call on the key. -/
def remove_async (coll : Collection) (key : String) : Collection :=
  delete_one coll key

/-- remove_batch_async (source lines 299-312): one independent delete_one
call per key, in order. -/
def remove_batch_async (coll : Collection) (keys : List String) : Collection :=
  keys.foldl delete_one coll

/-- The ranking the external database engine applies to a collection for a
query embedding: an opaque parameter of the model, since similarity scoring
lives entirely server-side. -/
abbrev SearchEngine := Collection → List Int → List MongoDoc

/-- A server-side similarity pipeline: which dialect stage it uses, the query
embedding, the embedding field name, the collection whose named index an
Atlas stage references, and the result limit. -/
structure SearchPipeline where
  cosmosStage : Bool
  embeddings : List Int
  embedding_key : String
  atlasCollection : Option String
  limit : Nat
deriving DecidableEq

/-- Modelled from the spec: get_azuremongodb_similarity_query (utils.py, not
under src) builds a Cosmos vector-ivf search stage over the embedding field
with the given limit. -/
def get_azuremongodb_similarity_query (embeddings : List Int)
    (embedding_key : String) (limit : Nat) : SearchPipeline :=
  ⟨true, embeddings, embedding_key, none, limit⟩

/-- Modelled from the spec: get_mongodbatlas_similarity_query (utils.py, not
under src) builds an Atlas vectorSearch stage referencing the collection's
named index, with the given limit. -/
def get_mongodbatlas_similarity_query (embeddings : List Int)
    (embedding_key : String) (collection_name : String) (limit : Nat) :
    SearchPipeline :=
  ⟨false, embeddings, embedding_key, some collection_name, limit⟩

/-- The pipeline chosen by get_nearest_matches_async (source lines 352-362):
the Cosmos stage exactly when api_type equals azuremongodb, the Atlas stage
for every other value — the dialect is never validated. -/
def selected_pipeline (api_type : String) (embeddings : List Int)
    (embedding_key : String) (collection_name : String) (limit : Nat) :
    SearchPipeline :=
  if api_type = "azuremongodb" then
    get_azuremongodb_similarity_query embeddings embedding_key limit
  else
    get_mongodbatlas_similarity_query embeddings embedding_key collection_name limit

/-- Modelled from the spec: collection.aggregate on a similarity pipeline —
the server ranks the documents (opaque engine) and the pipeline's limit caps
how many are returned. -/
def aggregate (engine : SearchEngine) (coll : Collection) (p : SearchPipeline) :
    List MongoDoc :=
  (engine coll p.embeddings).take p.limit

/-- get_nearest_matches_async (source lines 331-371): build the pipeline for
the configured dialect, run it against the collection, and map every
resulting document back into a record. -/
def get_nearest_matches_async (api_type : String) (engine : SearchEngine)
    (embedding_key : String) (coll : Collection) (collection_name : String)
    (emb : List Int) (limit : Nat) : List MemoryRecord :=
  (aggregate engine coll
      (selected_pipeline api_type emb embedding_key collection_name limit)).map
    dict_to_memory_record

/-- get_nearest_match_async (source lines 319-329): call
get_nearest_matches_async with limit 1 and return the first record when the
result is non-empty, else None. -/
def get_nearest_match_async (api_type : String) (engine : SearchEngine)
    (embedding_key : String) (coll : Collection) (collection_name : String)
    (emb : List Int) : Option MemoryRecord :=
  match get_nearest_matches_async api_type engine embedding_key coll
      collection_name emb 1 with
  | [] => none
  | x :: _ => some x

/-- Modelled from the spec: GetNearestMatch is GetNearestMatches invoked with
limit 1 followed by taking the first element, absent when there is none. -/
def get_nearest_match_spec (api_type : String) (engine : SearchEngine)
    (embedding_key : String) (coll : Collection) (collection_name : String)
    (emb : List Int) : Option MemoryRecord :=
  (get_nearest_matches_async api_type engine embedding_key coll
      collection_name emb 1).head?

/-- The createIndexes administrative command issued by the Cosmos branch of
create_collection_async, with the cosmosSearchOptions it carries. -/
structure CreateIndexesCmd where
  collection : String
  index_name : String
  embedding_key : String
  kind : String
  numLists : Nat
  similarity : String
  dimensions : Int
deriving DecidableEq

/-- An observable call create_collection_async makes against the database:
either the createIndexes command (which also creates the collection it names)
or a bare create-collection call. -/
inductive DbAction where
  | runCommand : CreateIndexesCmd → DbAction
  | createCollection : String → DbAction
deriving DecidableEq

/-- does_collection_exist_async (source lines 184-196): membership of the
name in the database's live collection catalog. -/
def does_collection_exist_async (collections : List String)
    (collection_name : String) : Bool :=
  collections.contains collection_name

/-- create_collection_async (source lines 95-144): under azuremongodb, when
the collection is absent, issue one createIndexes command carrying a
vector-ivf index with the given numLists and similarity and the store's
vector size; under mongodbatlas, when absent, create the bare collection;
under any other api_type, do nothing at all. -/
def create_collection_async (api_type : String) (embedding_key : String)
    (vector_size : Int) (collections : List String) (collection_name : String)
    (similarity : String) (num_lists : Nat) : List DbAction :=
  if api_type = "azuremongodb" then
    if does_collection_exist_async collections collection_name then []
    else
      [DbAction.runCommand ⟨collection_name, "vectorSearchIndex", embedding_key,
        "vector-ivf", num_lists, similarity, vector_size⟩]
  else if api_type = "mongodbatlas" then
    if does_collection_exist_async collections collection_name then []
    else [DbAction.createCollection collection_name]
  else []

/-- A concrete record with a fresh id, used as a concrete input. -/
def recA : MemoryRecord := ⟨some "a", "text-a", [1, 0, 0]⟩

/-- A second concrete record with a fresh id, used as a concrete input. -/
def recB : MemoryRecord := ⟨some "b", "text-b", [0, 1, 0]⟩

/-- Claim C1: the spec says construction against a collection lacking the
configured search index fails with a missing-index error.  In the code the
guard tests the truthiness of an un-awaited coroutine, so it can never fire:
construction succeeds even when the index does not exist (first conjunct,
concrete failing input with indexExists = false), and no argument vector at
all can produce the missing-index outcome (second conjunct). -/
theorem c1_missing_index_never_raised :
    mongodb_memory_store_init 3 (some "db") "azuremongodb" (some "embedding")
      (some "col") "vectorSearchIndex" 1000 false =
      InitOutcome.ok ⟨"azuremongodb", "col", "vectorSearchIndex", "embedding", 3, 1000⟩ ∧
    ∀ vs dbn apt ek cn inm bs idx,
      mongodb_memory_store_init vs dbn apt ek cn inm bs idx ≠
        InitOutcome.missingIndexError := by
  constructor
  · rfl
  · intro vs dbn apt ek cn inm bs idx
    unfold mongodb_memory_store_init
    split_ifs <;> simp_all [pyTruthy]

/-- Claim C3 counterexample: an empty embedding key is not a non-empty
string, yet construction raises no configuration error and succeeds —
the code only checks the arguments against None. -/
theorem c3_empty_embedding_key_accepted :
    mongodb_memory_store_init 3 (some "db") "azuremongodb" (some "")
      (some "col") "vectorSearchIndex" 1000 true =
      InitOutcome.ok ⟨"azuremongodb", "col", "vectorSearchIndex", "", 3, 1000⟩ := by
  rfl

/-- Claim C3 amended: construction raises a configuration error exactly when
the vector size is non-positive or one of embedding key, database name,
collection name is absent (None); empty strings pass the checks, and any
argument vector passing these checks raises no configuration error. -/
theorem c3_config_error_iff (vs : Int) (dbn ek cn : Option String)
    (apt inm : String) (bs : Nat) (idx : Bool) :
    (∃ msg, mongodb_memory_store_init vs dbn apt ek cn inm bs idx =
        InitOutcome.configError msg) ↔
      (vs ≤ 0 ∨ ek = none ∨ dbn = none ∨ cn = none) := by
  unfold mongodb_memory_store_init
  split_ifs <;> simp_all [pyTruthy]

/-- update_one never changes the sequence of document ids. -/
lemma keys_update_one (c : Collection) (k : String) (d : MongoDoc) :
    (update_one c k d).map Prod.fst = c.map Prod.fst := by
  induction c with
  | nil => rfl
  | cons p rest ih =>
      by_cases h : p.1 = k
      · simp [update_one, h]
      · simp [update_one, h, ih]

/-- A key occurring among the document ids is found by find_one. -/
lemma find_one_isSome_of_mem (c : Collection) (k : String)
    (h : k ∈ c.map Prod.fst) : (find_one c k).isSome := by
  induction c with
  | nil => simp at h
  | cons p rest ih =>
      rw [List.map_cons, List.mem_cons] at h
      by_cases hpk : p.1 = k
      · simp [find_one, hpk]
      · have hk : k ∈ rest.map Prod.fst := by
          rcases h with h | h
          · exact absurd h.symm hpk
          · exact h
        simpa [find_one, hpk] using ih hk

/-- A key not occurring among the document ids is not found by find_one. -/
lemma find_one_eq_none_of_not_mem (c : Collection) (k : String)
    (h : k ∉ c.map Prod.fst) : find_one c k = none := by
  induction c with
  | nil => rfl
  | cons p rest ih =>
      rw [List.map_cons, List.mem_cons] at h
      push_neg at h
      have hne : ¬ p.1 = k := fun hpk => h.1 hpk.symm
      simp [find_one, hne, ih h.2]

/-- An upsert step on a record whose id is present and already stored takes
the update path: the document is replaced in place and the buffer, reported
ids, call count and id supply are untouched. -/
lemma upsertStep_existing (D : Nat) (s : UpsertState) (r : MemoryRecord)
    (hf : idFalsy r._id = false) (d : MongoDoc)
    (hd : find_one s.coll (r._id.getD "") = some d) :
    upsertStep D s r =
      { s with coll := update_one s.coll (r._id.getD "")
                 (memory_record_to_mongodb_record (r._id.getD "") r) } := by
  unfold upsertStep
  simp only [hf, Bool.false_eq_true, if_false, hd]

/-- An upsert step on a record whose id is present, fresh, and does not bring
the buffer up to the flush threshold only extends the buffer. -/
lemma upsertStep_fresh (D : Nat) (s : UpsertState) (r : MemoryRecord)
    (hf : idFalsy r._id = false)
    (hd : find_one s.coll (r._id.getD "") = none)
    (hlen : ¬ s.buffer.length + 1 = D) :
    upsertStep D s r =
      { s with buffer :=
          s.buffer ++ [memory_record_to_mongodb_record (r._id.getD "") r] } := by
  unfold upsertStep
  simp only [hf, Bool.false_eq_true, if_false, hd, List.length_append,
    List.length_cons, List.length_nil, Nat.zero_add, hlen]

/-- The upsert loop on records that all already have matching documents
performs only in-place updates: the buffer, reported ids, call count and id
supply come out exactly as they went in. -/
lemma upsert_loop_all_existing (D : Nat) (records : List MemoryRecord) :
    ∀ (c : Collection) (buf : List MongoDoc) (ids : List String) (m n : Nat),
      (∀ r ∈ records, idFalsy r._id = false ∧ r._id.getD "" ∈ c.map Prod.fst) →
      records.foldl (upsertStep D) ⟨c, buf, ids, m, n⟩ =
        ⟨update_all c records, buf, ids, m, n⟩ := by
  induction records with
  | nil => intro c buf ids m n _; rfl
  | cons r rs ih =>
      intro c buf ids m n h
      obtain ⟨hf, hm⟩ := h r (by simp)
      obtain ⟨d, hd⟩ := Option.isSome_iff_exists.mp (find_one_isSome_of_mem c _ hm)
      rw [List.foldl_cons, upsertStep_existing D _ r hf d hd]
      rw [show ({ (⟨c, buf, ids, m, n⟩ : UpsertState) with
            coll := update_one c (r._id.getD "")
              (memory_record_to_mongodb_record (r._id.getD "") r) } : UpsertState) =
          ⟨update_one c (r._id.getD "")
              (memory_record_to_mongodb_record (r._id.getD "") r), buf, ids, m, n⟩
        from rfl]
      rw [ih]
      · rfl
      · intro r2 hr2
        obtain ⟨hf2, hm2⟩ := h r2 (List.mem_cons_of_mem r hr2)
        refine ⟨hf2, ?_⟩
        rw [keys_update_one]
        exact hm2

/-- Claim C4: a batch whose records all already have matching documents is
processed entirely on the update path — every corresponding document is
replaced in place (the final collection is the fold of update_one over the
batch), the returned id list is empty, and no bulk-insert call is issued. -/
theorem c4_existing_batch_updates_in_place (D : Nat) (coll : Collection)
    (records : List MemoryRecord) (ctr : Nat)
    (h : ∀ r ∈ records, idFalsy r._id = false ∧ r._id.getD "" ∈ coll.map Prod.fst) :
    upsert_batch_async D coll records ctr =
      ⟨update_all coll records, [], [], 0, ctr⟩ := by
  unfold upsert_batch_async
  rw [upsert_loop_all_existing D records coll [] [] 0 ctr h]
  rfl

/-- Witness for claim C4 at a concrete collection and batch. -/
theorem c4_existing_batch_updates_in_place_witness :
    upsert_batch_async 2 [("a", memory_record_to_mongodb_record "a" recB)] [recA] 0 =
      ⟨update_all [("a", memory_record_to_mongodb_record "a" recB)] [recA], [], [], 0, 0⟩ :=
  c4_existing_batch_updates_in_place 2
    [("a", memory_record_to_mongodb_record "a" recB)] [recA] 0 (by decide)

/-- Claim C5: Upsert on one record is exactly batch upsert on the singleton
batch followed by taking the first id of the result, absent when the batch
reported no ids (and the states agree as well). -/
theorem c5_upsert_delegates_to_batch (D : Nat) (coll : Collection)
    (r : MemoryRecord) (ctr : Nat) :
    (upsert_async D coll r ctr).1 = upsert_spec D coll r ctr ∧
    (upsert_async D coll r ctr).2 = upsert_batch_async D coll [r] ctr := by
  unfold upsert_async upsert_spec
  cases h : (upsert_batch_async D coll [r] ctr).inserted_ids <;> simp [h]

/-- Claim C2: the spec says a store constructed with batch size B flushes the
pending-insert buffer at B records, issuing ceil(N over B) bulk-insert calls
for N fresh records.  The code compares the buffer against the module
constant DEFAULT_INSERT_BATCH_SIZE instead and never reads the stored batch
size, so for every value D of that constant there is a configured batch size
B (and a two-record batch of fresh ids) for which the number of bulk-insert
calls differs from the claimed ceil(2 over B). -/
theorem c2_configured_batch_size_ignored (D : Nat) (hD : 1 ≤ D) :
    ∃ B : Nat, 1 ≤ B ∧
      (upsert_batch_async D [] [recA, recB] 0).insertCalls ≠ (2 + B - 1) / B := by
  by_cases h1 : D = 1
  · subst h1
    exact ⟨2, by decide, by decide⟩
  · by_cases h2 : D = 2
    · subst h2
      exact ⟨1, by decide, by decide⟩
    · refine ⟨1, le_refl 1, ?_⟩
      have e1 : upsertStep D ⟨[], [], [], 0, 0⟩ recA =
          ⟨[], [memory_record_to_mongodb_record "a" recA], [], 0, 0⟩ := by
        rw [upsertStep_fresh D ⟨[], [], [], 0, 0⟩ recA (by decide) rfl
          (by simp only [List.length_nil, Nat.zero_add]; exact fun h => h1 h.symm)]
        rfl
      have e2 : upsertStep D ⟨[], [memory_record_to_mongodb_record "a" recA], [], 0, 0⟩ recB =
          ⟨[], [memory_record_to_mongodb_record "a" recA,
                memory_record_to_mongodb_record "b" recB], [], 0, 0⟩ := by
        rw [upsertStep_fresh D ⟨[], [memory_record_to_mongodb_record "a" recA], [], 0, 0⟩
          recB (by decide) rfl
          (by simp only [List.length_cons, List.length_nil, Nat.zero_add]
              exact fun h => h2 h.symm)]
        rfl
      have e3 : upsert_batch_async D [] [recA, recB] 0 =
          ⟨[("a", memory_record_to_mongodb_record "a" recA),
            ("b", memory_record_to_mongodb_record "b" recB)], [], ["a", "b"], 1, 0⟩ := by
        unfold upsert_batch_async
        rw [List.foldl_cons, e1, List.foldl_cons, e2, List.foldl_nil]
        rfl
      rw [e3]
      decide

/-- Witness for claim C2, instantiating the module constant at 2. -/
theorem c2_configured_batch_size_ignored_witness :
    ∃ B : Nat, 1 ≤ B ∧
      (upsert_batch_async 2 [] [recA, recB] 0).insertCalls ≠ (2 + B - 1) / B :=
  c2_configured_batch_size_ignored 2 (by decide)

/-- A key matching no document id yields an empty find cursor. -/
lemma findDocs_eq_nil_of_not_mem (c : Collection) (k : String)
    (h : k ∉ c.map Prod.fst) : findDocs c k = [] := by
  induction c with
  | nil => rfl
  | cons p rest ih =>
      rw [List.map_cons, List.mem_cons] at h
      push_neg at h
      have hne : ¬ p.1 = k := fun hpk => h.1 hpk.symm
      simp [findDocs, hne, ih h.2]

/-- When document ids are unique, the full find cursor for a key carries at
most one document: exactly what find_one reports. -/
lemma findDocs_eq_toList_find_one (c : Collection)
    (hc : (c.map Prod.fst).Nodup) (k : String) :
    findDocs c k = (find_one c k).toList := by
  induction c with
  | nil => rfl
  | cons p rest ih =>
      rw [List.map_cons, List.nodup_cons] at hc
      by_cases hpk : p.1 = k
      · have hrest : k ∉ rest.map Prod.fst := by
          rw [← hpk]
          exact hc.1
        simp [findDocs, find_one, hpk, findDocs_eq_nil_of_not_mem rest k hrest]
      · simp [findDocs, find_one, hpk, ih hc.2]

/-- Folding list-append of optional singletons is filterMap. -/
lemma foldl_append_toList_eq_filterMap (g : String → Option MemoryRecord)
    (keys : List String) :
    ∀ acc : List MemoryRecord,
      keys.foldl (fun a k => a ++ (g k).toList) acc = acc ++ keys.filterMap g := by
  induction keys with
  | nil => intro acc; simp
  | cons k ks ih =>
      intro acc
      rw [List.foldl_cons, ih, List.filterMap_cons]
      cases g k <;> simp

/-- Claim C6: with unique document ids, GetBatch returns exactly the records
of those keys that match a document, in key-processing order — missing keys
are silently dropped — so the result is never longer than the key list. -/
theorem c6_get_batch_silently_omits_missing (coll : Collection)
    (keys : List String) (hc : (coll.map Prod.fst).Nodup) :
    get_batch_async coll keys =
      keys.filterMap (fun k => (find_one coll k).map dict_to_memory_record) ∧
    (get_batch_async coll keys).length ≤ keys.length := by
  have hfd : ∀ k, (findDocs coll k).map dict_to_memory_record =
      ((find_one coll k).map dict_to_memory_record).toList := by
    intro k
    rw [findDocs_eq_toList_find_one coll hc k]
    cases find_one coll k <;> rfl
  have h1 : get_batch_async coll keys =
      keys.filterMap (fun k => (find_one coll k).map dict_to_memory_record) := by
    unfold get_batch_async
    simp only [hfd]
    rw [foldl_append_toList_eq_filterMap
      (fun k => (find_one coll k).map dict_to_memory_record) keys []]
    simp
  refine ⟨h1, ?_⟩
  rw [h1]
  exact List.length_filterMap_le _ _

/-- Witness for claim C6 at a one-document collection and a key list mixing
an existing and a missing key. -/
theorem c6_get_batch_silently_omits_missing_witness :
    get_batch_async [("a", memory_record_to_mongodb_record "a" recA)] ["a", "x"] =
      (["a", "x"] : List String).filterMap
        (fun k => (find_one [("a", memory_record_to_mongodb_record "a" recA)] k).map
          dict_to_memory_record) ∧
    (get_batch_async [("a", memory_record_to_mongodb_record "a" recA)]
        ["a", "x"]).length ≤ 2 :=
  c6_get_batch_silently_omits_missing
    [("a", memory_record_to_mongodb_record "a" recA)] ["a", "x"] (by decide)

/-- Claim C7: GetNearestMatch is GetNearestMatches at limit 1 followed by
taking the first element (absent when there is none), and GetNearestMatches
at limit k returns at most k records. -/
theorem c7_nearest_match_refines_matches (api_type : String)
    (engine : SearchEngine) (embedding_key : String) (coll : Collection)
    (collection_name : String) (emb : List Int) :
    get_nearest_match_async api_type engine embedding_key coll collection_name emb =
      get_nearest_match_spec api_type engine embedding_key coll collection_name emb ∧
    ∀ k, (get_nearest_matches_async api_type engine embedding_key coll
        collection_name emb k).length ≤ k := by
  constructor
  · unfold get_nearest_match_async get_nearest_match_spec
    cases get_nearest_matches_async api_type engine embedding_key coll
      collection_name emb 1 <;> rfl
  · intro k
    have hlim : (selected_pipeline api_type emb embedding_key collection_name k).limit = k := by
      unfold selected_pipeline get_azuremongodb_similarity_query
        get_mongodbatlas_similarity_query
      split_ifs <;> rfl
    unfold get_nearest_matches_async aggregate
    rw [List.length_map, hlim]
    exact List.length_take_le _ _

/-- delete_one removes at most one entry: the length drops by at most one
and never grows. -/
lemma length_delete_one (c : Collection) (k : String) :
    (delete_one c k).length ≤ c.length ∧ c.length ≤ (delete_one c k).length + 1 := by
  induction c with
  | nil => simp [delete_one]
  | cons p rest ih =>
      obtain ⟨ih1, ih2⟩ := ih
      by_cases h : p.1 = k <;> simp [delete_one, h] <;> omega

/-- delete_one on a key matching no document id changes nothing. -/
lemma delete_one_not_mem (c : Collection) (k : String)
    (h : k ∉ c.map Prod.fst) : delete_one c k = c := by
  induction c with
  | nil => rfl
  | cons p rest ih =>
      rw [List.map_cons, List.mem_cons] at h
      push_neg at h
      have hne : ¬ p.1 = k := fun hpk => h.1 hpk.symm
      simp [delete_one, hne, ih h.2]

/-- Claim C8: Remove is a single delete_one, which removes at most one
document and leaves the collection untouched (no error) when the key is
absent; RemoveBatch is one independent delete_one per key in sequence, with
no atomicity across the batch. -/
theorem c8_remove_deletes_at_most_one (coll : Collection) (key : String)
    (keys : List String) :
    remove_async coll key = delete_one coll key ∧
    (delete_one coll key).length ≤ coll.length ∧
    coll.length ≤ (delete_one coll key).length + 1 ∧
    (key ∉ coll.map Prod.fst → delete_one coll key = coll) ∧
    remove_batch_async coll (key :: keys) =
      remove_batch_async (delete_one coll key) keys :=
  ⟨rfl, (length_delete_one coll key).1, (length_delete_one coll key).2,
    fun h => delete_one_not_mem coll key h, rfl⟩

/-- Witness for claim C8: removing a missing key from a one-document
collection succeeds and changes nothing. -/
theorem c8_remove_deletes_at_most_one_witness :
    delete_one [("a", memory_record_to_mongodb_record "a" recA)] "b" =
      [("a", memory_record_to_mongodb_record "a" recA)] :=
  (c8_remove_deletes_at_most_one
    [("a", memory_record_to_mongodb_record "a" recA)] "b" []).2.2.2.1 (by decide)

/-- Claim C9: on an absent collection, the Cosmos dialect issues exactly one
createIndexes command carrying a vector-ivf index configured with the given
numLists, the given similarity and the store's vector size (one call creating
collection and index together), while the Atlas dialect only creates the bare
collection and issues no index command. -/
theorem c9_create_collection_dialects (collections : List String)
    (collection_name embedding_key similarity : String) (vector_size : Int)
    (num_lists : Nat)
    (habs : does_collection_exist_async collections collection_name = false) :
    create_collection_async "azuremongodb" embedding_key vector_size collections
        collection_name similarity num_lists =
      [DbAction.runCommand ⟨collection_name, "vectorSearchIndex", embedding_key,
        "vector-ivf", num_lists, similarity, vector_size⟩] ∧
    create_collection_async "mongodbatlas" embedding_key vector_size collections
        collection_name similarity num_lists =
      [DbAction.createCollection collection_name] ∧
    ∀ cmd, DbAction.runCommand cmd ∉
      create_collection_async "mongodbatlas" embedding_key vector_size collections
        collection_name similarity num_lists := by
  refine ⟨?_, ?_, ?_⟩ <;> simp [create_collection_async, habs]

/-- Witness for claim C9 on an empty collection catalog. -/
theorem c9_create_collection_dialects_witness :
    create_collection_async "azuremongodb" "embedding" 3 [] "col" "COS" 100 =
      [DbAction.runCommand ⟨"col", "vectorSearchIndex", "embedding",
        "vector-ivf", 100, "COS", 3⟩] ∧
    create_collection_async "mongodbatlas" "embedding" 3 [] "col" "COS" 100 =
      [DbAction.createCollection "col"] ∧
    ∀ cmd, DbAction.runCommand cmd ∉
      create_collection_async "mongodbatlas" "embedding" 3 [] "col" "COS" 100 :=
  c9_create_collection_dialects [] "col" "embedding" "COS" 3 100 (by decide)

/-- Claim C10: the api_type is never validated — every value other than
azuremongodb makes GetNearestMatches build the Atlas-style pipeline, and
every value other than azuremongodb and mongodbatlas makes CreateCollection
silently do nothing at all. -/
theorem c10_api_type_never_validated (api_type : String) :
    (api_type ≠ "azuremongodb" →
      ∀ (engine : SearchEngine) (embedding_key : String) (coll : Collection)
        (collection_name : String) (emb : List Int) (k : Nat),
        selected_pipeline api_type emb embedding_key collection_name k =
          get_mongodbatlas_similarity_query emb embedding_key collection_name k ∧
        get_nearest_matches_async api_type engine embedding_key coll
            collection_name emb k =
          (aggregate engine coll
              (get_mongodbatlas_similarity_query emb embedding_key collection_name k)).map
            dict_to_memory_record) ∧
    (api_type ≠ "azuremongodb" → api_type ≠ "mongodbatlas" →
      ∀ (embedding_key : String) (vector_size : Int) (collections : List String)
        (collection_name similarity : String) (num_lists : Nat),
        create_collection_async api_type embedding_key vector_size collections
          collection_name similarity num_lists = []) := by
  constructor
  · intro h engine ek coll cn emb k
    have hp : selected_pipeline api_type emb ek cn k =
        get_mongodbatlas_similarity_query emb ek cn k := by
      unfold selected_pipeline
      rw [if_neg h]
    refine ⟨hp, ?_⟩
    unfold get_nearest_matches_async
    rw [hp]
  · intro h1 h2 ek vs colls cn sim nl
    unfold create_collection_async
    rw [if_neg h1, if_neg h2]

/-- Witness for claim C10 at the unsupported api_type value bogus. -/
theorem c10_api_type_never_validated_witness :
    selected_pipeline "bogus" [1, 0, 0] "embedding" "col" 3 =
      get_mongodbatlas_similarity_query [1, 0, 0] "embedding" "col" 3 ∧
    create_collection_async "bogus" "embedding" 3 [] "col" "COS" 100 = [] :=
  ⟨((c10_api_type_never_validated "bogus").1 (by decide)
      (fun _ _ => []) "embedding" [] "col" [1, 0, 0] 3).1,
    (c10_api_type_never_validated "bogus").2 (by decide) (by decide)
      "embedding" 3 [] "col" "COS" 100⟩
